import Mathlib

/-!
Verification of the Retell webhook processor core: payload classification,
per-classification field validation, notification-task dispatch with
settle-all aggregation, signature gating, and configuration loading.
Definitions are shallow embeddings of the TypeScript source functions
(`isIrCall`, `isNonIrCall`, `validateIrCallData`, `validateNonIrCallData`,
`loadConfiguration`, `createJiraTicketViaApi`, `RetellWebhookProcessor`).
-/

namespace Webhook

/-- Characters removed by `trim()`: JS trims whitespace from both ends;
modelled with the standard whitespace class. -/
def trimChars (l : List Char) : List Char :=
  ((l.dropWhile Char.isWhitespace).reverse.dropWhile Char.isWhitespace).reverse

/-- `s.trim()`, as a structurally recursive function on the character list. -/
def strTrim (s : String) : String := String.mk (trimChars s.data)

/-- `s.toLowerCase()`, mapping each character to lower case. -/
def strToLower (s : String) : String := String.mk (s.data.map Char.toLower)

/-- The inner analysis-field mapping: named optional scalar fields, as in the
source interfaces `analysis` / `call_analysis.custom_analysis_data`.
Scalar values that the source coerces through `String(...)` are modelled as
strings; the security-incident flag is an optional boolean. -/
structure AnalysisData where
  incident_liability_insurance_status : Option String := none
  caller_name : Option String := none
  current_customer : Option String := none
  cybersecurity_insurance_provider_name : Option String := none
  non_IR_inquiry_reason : Option String := none
  caller_email_address : Option String := none
  company_name : Option String := none
  caller_phone_number : Option String := none
  IR_call_description : Option String := none
  non_IR_call_description : Option String := none
  caller_location : Option String := none
  is_security_incident : Option Bool := none
deriving DecidableEq, Repr

/-- The nested `call_analysis` object of the new payload shape. -/
structure CallAnalysis where
  call_summary : Option String := none
  custom_analysis_data : Option AnalysisData := none
deriving DecidableEq, Repr

/-- The call object (`RetellAnalysisPayload` in the source): both legacy
shapes that can carry the analysis mapping. -/
structure RetellAnalysisPayload where
  call_id : String := ""
  analysis : Option AnalysisData := none
  call_analysis : Option CallAnalysis := none
deriving DecidableEq, Repr

/-- Webhook event kinds sent by Retell. -/
inductive EventType
  | call_started
  | call_ended
  | call_analyzed
deriving DecidableEq, Repr

/-- The webhook envelope: event kind plus call object. -/
structure RetellWebhookPayload where
  event : EventType
  call : RetellAnalysisPayload
deriving DecidableEq, Repr

/-- The empty analysis object, the `{}` fallback in the source. -/
def emptyAnalysis : AnalysisData := {}

/-- `payload.analysis || payload.call_analysis?.custom_analysis_data || {}`:
the flat shape wins when present, else the nested shape, else empty. -/
def getAnalysis (p : RetellAnalysisPayload) : AnalysisData :=
  match p.analysis with
  | some a => a
  | none =>
    match p.call_analysis with
    | some ca => ca.custom_analysis_data.getD emptyAnalysis
    | none => emptyAnalysis

/-- `!!(v?.trim() && v.trim().length > 0)`: the optional string holds
non-whitespace text. -/
def hasTrimmedText (v : Option String) : Bool :=
  match v with
  | none => false
  | some s => decide (0 < (strTrim s).length)

/-- Source `isIrCall`: non-empty trimmed `IR_call_description`, or
`is_security_incident === true`. -/
def isIrCall (p : RetellAnalysisPayload) : Bool :=
  let analysis := getAnalysis p
  hasTrimmedText analysis.IR_call_description ||
    (analysis.is_security_incident == some true)

/-- Source `isNonIrCall`: the security-incident flag must not be `true`, and
a non-empty trimmed inquiry reason or description must be present. -/
def isNonIrCall (p : RetellAnalysisPayload) : Bool :=
  let analysis := getAnalysis p
  if analysis.is_security_incident == some true then
    false
  else
    hasTrimmedText analysis.non_IR_inquiry_reason ||
      hasTrimmedText analysis.non_IR_call_description

/-- Derived classification, following the handler's branch order:
IR first, then non-IR, else unclassified. -/
inductive Classification
  | incident
  | inquiry
  | unclassified
deriving DecidableEq, Repr

/-- The handler's classification of one call (`isIr` / `isNonIr` branch order). -/
def classify (p : RetellAnalysisPayload) : Classification :=
  if isIrCall p then Classification.incident
  else if isNonIrCall p then Classification.inquiry
  else Classification.unclassified

/-- `!v || String(v).trim() === '' || String(v).trim().toLowerCase() === 'not provided'`
negated: the field carries a usable value. -/
def fieldProvided (v : Option String) : Bool :=
  match v with
  | none => false
  | some s =>
      !(s == "") && !(strTrim s == "") && !(strToLower (strTrim s) == "not provided")

/-- `{ valid, missingFields }` as returned by the validators. -/
structure ValidationResult where
  valid : Bool
  missingFields : List String
deriving DecidableEq, Repr

/-- Human-readable descriptor pushed when the incident flag is not `true`. -/
def missingFlagDesc : String :=
  "confirmed security incident (is_security_incident must be true)"

/-- Descriptor for a missing caller name on the IR path. -/
def missingIrCallerDesc : String := "caller first and last name"

/-- Descriptor for a missing company name. -/
def missingCompanyDesc : String := "company name"

/-- Descriptor for a missing phone number. -/
def missingPhoneDesc : String := "phone number"

/-- Source `validateIrCallData`: flag must be exactly `true`; caller name,
company name and phone number must each be provided; missing descriptors are
appended in that fixed order. -/
def validateIrCallData (p : RetellAnalysisPayload) : ValidationResult :=
  let analysis := getAnalysis p
  let m1 : List String :=
    if !(analysis.is_security_incident == some true) then [missingFlagDesc] else []
  let m2 := m1 ++ (if !fieldProvided analysis.caller_name then [missingIrCallerDesc] else [])
  let m3 := m2 ++ (if !fieldProvided analysis.company_name then [missingCompanyDesc] else [])
  let m4 := m3 ++ (if !fieldProvided analysis.caller_phone_number then [missingPhoneDesc] else [])
  { valid := m4.isEmpty, missingFields := m4 }

/-- Descriptor pushed when the flag is `true` on the non-IR path. -/
def notIncidentDesc : String :=
  "call must not be a security incident (is_security_incident must be false or not set)"

/-- Descriptor for a missing caller name on the non-IR path. -/
def missingNonIrCallerDesc : String := "caller name"

/-- Descriptor for missing contact information on the non-IR path. -/
def missingContactDesc : String := "contact information (phone number OR email address)"

/-- Source `validateNonIrCallData`: flag must not be `true`; caller name must
be provided; at least one of phone or email must be provided; company name is
not required. -/
def validateNonIrCallData (p : RetellAnalysisPayload) : ValidationResult :=
  let analysis := getAnalysis p
  let m1 : List String :=
    if analysis.is_security_incident == some true then [notIncidentDesc] else []
  let m2 := m1 ++ (if !fieldProvided analysis.caller_name then [missingNonIrCallerDesc] else [])
  let hasPhone := fieldProvided analysis.caller_phone_number
  let hasEmail := fieldProvided analysis.caller_email_address
  let m3 := m2 ++ (if !hasPhone && !hasEmail then [missingContactDesc] else [])
  { valid := m3.isEmpty, missingFields := m3 }

/-- The five notification tasks the handler can push onto `notificationTasks`. -/
inductive NotificationTask
  | jiraTicket
  | irEmail
  | teamsMessage
  | smsAlert
  | nonIrEmail
deriving DecidableEq, Repr

/-- The four notification channels behind the feature flags. -/
inductive Channel
  | email
  | teams
  | sms
  | jira
deriving DecidableEq, Repr

/-- The channel each task delivers through. -/
def channelOf : NotificationTask → Channel
  | NotificationTask.jiraTicket => Channel.jira
  | NotificationTask.irEmail => Channel.email
  | NotificationTask.teamsMessage => Channel.teams
  | NotificationTask.smsAlert => Channel.sms
  | NotificationTask.nonIrEmail => Channel.email

/-- The per-channel enable flags (`config.featureFlags`). -/
structure FeatureFlags where
  enableEmail : Bool
  enableTeams : Bool
  enableSms : Bool
  enableJira : Bool
deriving DecidableEq, Repr

/-- The enable flag governing a given channel. -/
def flagFor (flags : FeatureFlags) : Channel → Bool
  | Channel.email => flags.enableEmail
  | Channel.teams => flags.enableTeams
  | Channel.sms => flags.enableSms
  | Channel.jira => flags.enableJira

/-- The task list built on the IR branch and on the unclassified default
branch: Jira, IR email, Teams, SMS, each gated by its flag, in push order. -/
def incidentTaskSet (flags : FeatureFlags) : List NotificationTask :=
  (if flags.enableJira then [NotificationTask.jiraTicket] else []) ++
  (if flags.enableEmail then [NotificationTask.irEmail] else []) ++
  (if flags.enableTeams then [NotificationTask.teamsMessage] else []) ++
  (if flags.enableSms then [NotificationTask.smsAlert] else [])

/-- Task-list construction of `RetellWebhookProcessor`: on the IR branch,
validate then build the gated incident task set; on the non-IR branch,
validate then push the non-IR email task unconditionally; on the
unclassified branch, build the gated incident task set with no validation.
`Except.error` carries the missing-field list of the skipped response. -/
def dispatchTasks (p : RetellAnalysisPayload) (flags : FeatureFlags) :
    Except (List String) (List NotificationTask) :=
  if isIrCall p then
    let v := validateIrCallData p
    if !v.valid then Except.error v.missingFields
    else Except.ok (incidentTaskSet flags)
  else if isNonIrCall p then
    let v := validateNonIrCallData p
    if !v.valid then Except.error v.missingFields
    else Except.ok [NotificationTask.nonIrEmail]
  else
    Except.ok (incidentTaskSet flags)

/-- What a task does internally once started: the Jira, IR-email and
non-IR-email tasks re-run their validator and return early (without
throwing) when it fails; Teams and SMS always attempt their side effect. -/
inductive TaskAction
  | skippedInternally
  | attempted
deriving DecidableEq, Repr

/-- Internal behaviour of each task on a given payload, from the re-validation
guards of `createJiraTicketViaApi`, `sendEmailViaSendGrid` /
`sendEmailViaAzure`, and `sendNonIrEmail`. -/
def taskAction (p : RetellAnalysisPayload) : NotificationTask → TaskAction
  | NotificationTask.jiraTicket =>
      if (validateIrCallData p).valid then TaskAction.attempted
      else TaskAction.skippedInternally
  | NotificationTask.irEmail =>
      if (validateIrCallData p).valid then TaskAction.attempted
      else TaskAction.skippedInternally
  | NotificationTask.teamsMessage => TaskAction.attempted
  | NotificationTask.smsAlert => TaskAction.attempted
  | NotificationTask.nonIrEmail =>
      if (validateNonIrCallData p).valid then TaskAction.attempted
      else TaskAction.skippedInternally

/-- Whether a task's promise fulfils: an internally skipped task resolves
normally; an attempted task fulfils or rejects according to the external
adapter outcome `ext`. -/
def taskFulfilled (p : RetellAnalysisPayload) (ext : NotificationTask → Bool)
    (t : NotificationTask) : Bool :=
  match taskAction p t with
  | TaskAction.skippedInternally => true
  | TaskAction.attempted => ext t

/-- The per-task settled results, `Promise.allSettled` on the task list:
one boolean per constructed task, in order, none discarded. -/
def settledResults (tasks : List NotificationTask) (res : NotificationTask → Bool) :
    List Bool :=
  tasks.map res

/-- The `notification_results` summary of the response body. -/
structure NotificationStatus where
  total : Nat
  successful : Nat
  failed : Nat
deriving DecidableEq, Repr

/-- Settle-all aggregation: total, fulfilled count, rejected count over the
settled results. -/
def settleAll (tasks : List NotificationTask) (res : NotificationTask → Bool) :
    NotificationStatus :=
  let results := settledResults tasks res
  { total := results.length
    successful := (results.filter (fun b => b == true)).length
    failed := (results.filter (fun b => b == false)).length }

/-- Environment-variable store, a finite name-to-value mapping. -/
abbrev Env := List (String × String)

/-- `process.env[k]`. -/
def envGet (env : Env) (k : String) : Option String :=
  (env.find? (fun kv => kv.1 == k)).map (fun kv => kv.2)

/-- `process.env[k]?.toLowerCase() === 'true'`. -/
def envFlagTrue (env : Env) (k : String) : Bool :=
  ((envGet env k).map strToLower) == some "true"

/-- `!process.env[k]`: the variable is absent or empty. -/
def envFalsy (env : Env) (k : String) : Bool :=
  match envGet env k with
  | none => true
  | some s => s == ""

/-- Email provider selection (`EMAIL_PROVIDER`, default sendgrid). -/
inductive EmailProvider
  | sendgrid
  | azure
deriving DecidableEq, Repr

/-- The Jira portion of the configuration the dispatch claims need. -/
structure JiraConfig where
  failureNotificationRecipients : String
deriving DecidableEq, Repr

/-- The configuration consumed by classification-independent dispatch:
provider selection, Jira failure-alert recipients, and the feature flags. -/
structure ServiceConfig where
  emailProvider : EmailProvider
  jira : JiraConfig
  featureFlags : FeatureFlags
deriving DecidableEq, Repr

/-- `process.env.EMAIL_PROVIDER?.toLowerCase() === 'azure'`. -/
def providerIsAzure (env : Env) : Bool :=
  ((envGet env "EMAIL_PROVIDER").map strToLower) == some "azure"

/-- The `requiredEnvVars` list of `loadConfiguration`, built from the enabled
feature flags and the provider selection. -/
def requiredEnvVars (env : Env) : List String :=
  (if envFlagTrue env "ENABLE_EMAIL_NOTIFICATIONS" then
    (if providerIsAzure env then
      ["AZURE_COMMUNICATION_CONNECTION_STRING", "AZURE_COMMUNICATION_SENDER_EMAIL",
       "IRT_EMAIL_ADDRESS"]
     else
      ["SENDGRID_API_KEY", "SENDGRID_FROM_EMAIL", "IRT_EMAIL_ADDRESS"])
   else []) ++
  (if envFlagTrue env "ENABLE_TEAMS_NOTIFICATIONS" then ["TEAMS_WEBHOOK_URL"] else []) ++
  (if envFlagTrue env "ENABLE_SMS_NOTIFICATIONS" then
    ["TWILIO_ACCOUNT_SID", "TWILIO_AUTH_TOKEN", "TWILIO_FROM_NUMBER", "ONCALL_PHONE_NUMBER"]
   else []) ++
  (if envFlagTrue env "ENABLE_JIRA_NOTIFICATIONS" then
    ["JIRA_API_URL", "JIRA_USER_EMAIL", "JIRA_API_TOKEN", "JIRA_PROJECT_KEY"]
   else [])

/-- Source `loadConfiguration`: throws when a required variable for an
enabled feature is absent or empty, else returns the configuration. -/
def loadConfiguration (env : Env) : Except String ServiceConfig :=
  let missing := (requiredEnvVars env).filter (envFalsy env)
  if !missing.isEmpty then
    Except.error
      ("Missing required environment variables for enabled features: " ++
        String.intercalate ", " missing)
  else
    Except.ok
      { emailProvider :=
          if providerIsAzure env then EmailProvider.azure else EmailProvider.sendgrid
        jira :=
          { failureNotificationRecipients :=
              (envGet env "JIRA_FAILURE_NOTIFICATION_RECIPIENTS").getD
                "csirt@procircular.com,jsherlock@procircular.com" }
        featureFlags :=
          { enableEmail := envFlagTrue env "ENABLE_EMAIL_NOTIFICATIONS"
            enableTeams := envFlagTrue env "ENABLE_TEAMS_NOTIFICATIONS"
            enableSms := envFlagTrue env "ENABLE_SMS_NOTIFICATIONS"
            enableJira := envFlagTrue env "ENABLE_JIRA_NOTIFICATIONS" } }

/-- The inbound HTTP request as the handler sees it: the `RETELL_API_KEY`
environment value, the `x-retell-signature` header, and the raw body text. -/
structure WebhookRequest where
  apiKey : Option String
  signature : Option String
  rawBody : String
deriving Repr

/-- Observable processing steps, recorded in pipeline order. -/
inductive Step
  | readBody
  | verifySignature
  | parseBody
  | loadConfig
  | classifyStep
  | dispatchStep
deriving DecidableEq, Repr

/-- The handler's possible responses (status code and body family). -/
inductive HttpResult
  | serverMisconfig
  | missingSignature
  | invalidSignature
  | acknowledged (event : EventType)
  | unexpectedError (message : String)
  | skipped (message : String) (missingFields : List String)
  | processed (callType : String) (tasks : List NotificationTask)
      (status : NotificationStatus)
deriving DecidableEq, Repr

/-- HTTP status code of each response, as returned by the source. -/
def httpStatus : HttpResult → Nat
  | HttpResult.serverMisconfig => 500
  | HttpResult.missingSignature => 400
  | HttpResult.invalidSignature => 401
  | HttpResult.acknowledged _ => 200
  | HttpResult.unexpectedError _ => 500
  | HttpResult.skipped _ _ => 200
  | HttpResult.processed _ _ _ => 200

/-- The `success` boolean of the JSON response body. -/
def successFlag : HttpResult → Bool
  | HttpResult.acknowledged _ => true
  | HttpResult.processed _ _ _ => true
  | _ => false

/-- The `call_type` string logged and returned by the handler. -/
def callTypeLabel (p : RetellAnalysisPayload) : String :=
  if isIrCall p then "IR"
  else if isNonIrCall p then "NON-IR"
  else "UNCLASSIFIED (defaulting to IR)"

/-- Skip message of the IR branch. -/
def irSkipMessage : String := "IR call processing skipped - missing required data"

/-- Skip message of the non-IR branch. -/
def nonIrSkipMessage : String := "Non-IR call processing skipped - missing required data"

/-- The `RetellWebhookProcessor` pipeline: secret check, signature-header
check, raw-body read, signature verification, JSON parse, event filtering,
configuration load, classification, validation-gated task construction, and
settle-all dispatch. `verify` is the `Retell.verify` collaborator, `parse`
the JSON parser, `ext` the external adapter outcome of each attempted task.
Returns the response together with the trace of processing steps taken. -/
def processWebhook (verify : String → String → String → Bool)
    (parse : String → Option RetellWebhookPayload) (env : Env)
    (ext : NotificationTask → Bool) (req : WebhookRequest) :
    HttpResult × List Step :=
  match req.apiKey with
  | none => (HttpResult.serverMisconfig, [])
  | some apiKey =>
    match req.signature with
    | none => (HttpResult.missingSignature, [])
    | some signature =>
      let trace1 := [Step.readBody]
      if !verify req.rawBody apiKey signature then
        (HttpResult.invalidSignature, trace1 ++ [Step.verifySignature])
      else
        let trace2 := trace1 ++ [Step.verifySignature]
        match parse req.rawBody with
        | none =>
            (HttpResult.unexpectedError "JSON parse error", trace2 ++ [Step.parseBody])
        | some webhookPayload =>
          let trace3 := trace2 ++ [Step.parseBody]
          if webhookPayload.event ≠ EventType.call_analyzed then
            (HttpResult.acknowledged webhookPayload.event, trace3)
          else
            let payload := webhookPayload.call
            match loadConfiguration env with
            | Except.error message =>
                (HttpResult.unexpectedError message, trace3 ++ [Step.loadConfig])
            | Except.ok config =>
              let trace4 := trace3 ++ [Step.loadConfig, Step.classifyStep]
              match dispatchTasks payload config.featureFlags with
              | Except.error missingFields =>
                  (HttpResult.skipped
                    (if isIrCall payload then irSkipMessage else nonIrSkipMessage)
                    missingFields, trace4)
              | Except.ok tasks =>
                  let status := settleAll tasks (taskFulfilled payload ext)
                  (HttpResult.processed (callTypeLabel payload) tasks status,
                    trace4 ++ [Step.dispatchStep])

/-- Outcome of the Jira REST call made by `createJiraTicketViaApi`. -/
inductive JiraApiOutcome
  | success (ticketKey : String)
  | httpError (statusCode : Nat) (errorText : String)
  | exceptionThrown (message : String)
deriving DecidableEq, Repr

/-- Whether the Jira REST call failed. -/
def jiraCallFails : JiraApiOutcome → Bool
  | JiraApiOutcome.success _ => false
  | JiraApiOutcome.httpError _ _ => true
  | JiraApiOutcome.exceptionThrown _ => true

/-- The error message the ticket task raises for each failing outcome. -/
def jiraErrorMessage : JiraApiOutcome → String
  | JiraApiOutcome.success _ => ""
  | JiraApiOutcome.httpError statusCode errorText =>
      "Jira API request failed: " ++ toString statusCode ++ " - " ++ errorText
  | JiraApiOutcome.exceptionThrown message => message

/-- `l.split(',')` on the character list: split at every comma. -/
def splitAtCommas : List Char → List Char → List (List Char)
  | [], acc => [acc.reverse]
  | c :: rest, acc =>
      if c = ',' then acc.reverse :: splitAtCommas rest []
      else splitAtCommas rest (c :: acc)

/-- Comma-separated recipient strings are split and trimmed before sending;
a string without a comma stays a single recipient. -/
def splitRecipients (s : String) : List String :=
  if s.data.contains ',' then
    ((splitAtCommas s.data []).map String.mk).map strTrim
  else [s]

/-- Result of one run of the ticket task: the value or error its promise
settles with, and the recipient list of the failure-alert email when one was
attempted. -/
structure JiraTaskRun where
  result : Except String Unit
  alertEmailRecipients : Option (List String)
deriving Repr

/-- Source `createJiraTicketViaApi`: re-validate and skip silently; on a
failing Jira call, when the email channel is enabled, attempt the
failure-alert email to the configured failure-notification recipients
(exactly once, guarded by `emailNotificationSent`), then rethrow the
original Jira error. `alertEmailFails` models the alert email's own
failure, which is caught and never replaces the original error. -/
def createJiraTicketViaApi (p : RetellAnalysisPayload) (config : ServiceConfig)
    (api : JiraApiOutcome) (_alertEmailFails : Bool) : JiraTaskRun :=
  if !(validateIrCallData p).valid then
    { result := Except.ok (), alertEmailRecipients := none }
  else
    match api with
    | JiraApiOutcome.success _ =>
        { result := Except.ok (), alertEmailRecipients := none }
    | JiraApiOutcome.httpError statusCode errorText =>
        let errorMessage :=
          "Jira API request failed: " ++ toString statusCode ++ " - " ++ errorText
        if config.featureFlags.enableEmail then
          { result := Except.error errorMessage
            alertEmailRecipients :=
              some (splitRecipients config.jira.failureNotificationRecipients) }
        else
          { result := Except.error errorMessage, alertEmailRecipients := none }
    | JiraApiOutcome.exceptionThrown message =>
        if config.featureFlags.enableEmail then
          { result := Except.error message
            alertEmailRecipients :=
              some (splitRecipients config.jira.failureNotificationRecipients) }
        else
          { result := Except.error message, alertEmailRecipients := none }

/-- Whether an `Except` settled without an error. -/
def exceptOk : Except String Unit → Bool
  | Except.ok _ => true
  | Except.error _ => false

/-- The missing-field descriptors of the IR validator in push order. -/
def irMissingOrder : List String :=
  [missingFlagDesc, missingIrCallerDesc, missingCompanyDesc, missingPhoneDesc]

/-- The missing-field descriptors of the non-IR validator in push order. -/
def nonIrMissingOrder : List String :=
  [notIncidentDesc, missingNonIrCallerDesc, missingContactDesc]

/-! ## Concrete fixtures used by witnesses and counterexamples -/

/-- A payload carrying no analysis data at all: matches neither classifier. -/
def pUnclassified : RetellAnalysisPayload := {}

/-- Analysis data of a well-formed inquiry call (name and email, inquiry
reason, no flag, no company). -/
def inquiryAnalysis : AnalysisData :=
  { caller_name := some "Bob", caller_email_address := some "bob@x.com",
    non_IR_inquiry_reason := some "billing question" }

/-- A well-formed inquiry payload. -/
def pInquiry : RetellAnalysisPayload := { analysis := some inquiryAnalysis }

/-- Analysis data of a fully valid incident call. -/
def incidentAnalysis : AnalysisData :=
  { caller_name := some "Jane Doe", company_name := some "Acme",
    caller_phone_number := some "5551234567", is_security_incident := some true,
    IR_call_description := some "Ransomware on server" }

/-- A fully valid incident payload. -/
def pIncident : RetellAnalysisPayload := { analysis := some incidentAnalysis }

/-- A payload whose only signal is the security-incident flag itself. -/
def pFlagOnly : RetellAnalysisPayload :=
  { analysis := some { is_security_incident := some true } }

/-- Analysis data with both incident text and inquiry text and no flag. -/
def bothTextsAnalysis : AnalysisData :=
  { IR_call_description := some "hacked mailbox",
    non_IR_inquiry_reason := some "pricing question" }

/-- A payload with both incident text and inquiry text and no flag. -/
def pBothTexts : RetellAnalysisPayload := { analysis := some bothTextsAnalysis }

/-- All four channels enabled. -/
def flagsAll : FeatureFlags := ⟨true, true, true, true⟩

/-- All four channels disabled. -/
def flagsNone : FeatureFlags := ⟨false, false, false, false⟩

/-- An environment enabling SMS without any Twilio variable. -/
def envSmsOnly : Env := [("ENABLE_SMS_NOTIFICATIONS", "true")]

/-- External adapter outcomes where only the Jira ticket call fails. -/
def extOneFail : NotificationTask → Bool :=
  fun t => !(t == NotificationTask.jiraTicket)

/-- External adapter outcomes where every attempted call fails. -/
def extAllFail : NotificationTask → Bool := fun _ => false

/-- A signature verifier that rejects everything. -/
def verifyNever : String → String → String → Bool := fun _ _ _ => false

/-- A signature verifier that accepts everything. -/
def verifyAlways : String → String → String → Bool := fun _ _ _ => true

/-- A JSON parser that always fails. -/
def parseNone : String → Option RetellWebhookPayload := fun _ => none

/-- A concrete `call_analyzed` envelope around the unclassified payload. -/
def analyzedEnvelope : RetellWebhookPayload :=
  { event := EventType.call_analyzed, call := pUnclassified }

/-- A JSON parser that always yields the analyzed envelope. -/
def parseAnalyzed : String → Option RetellWebhookPayload :=
  fun _ => some analyzedEnvelope

/-- A request with the shared secret missing. -/
def reqNoKey : WebhookRequest := { apiKey := none, signature := some "sig", rawBody := "body" }

/-- A request with the signature header missing. -/
def reqNoSig : WebhookRequest := { apiKey := some "key", signature := none, rawBody := "body" }

/-- A request with a signature that does not verify. -/
def reqBadSig : WebhookRequest :=
  { apiKey := some "key", signature := some "bad", rawBody := "body" }

/-- A fully authenticated request. -/
def reqOk : WebhookRequest := { apiKey := some "key", signature := some "sig", rawBody := "body" }

/-- The configuration-loading error message for `envSmsOnly`. -/
def smsMissingMessage : String :=
  "Missing required environment variables for enabled features: TWILIO_ACCOUNT_SID, TWILIO_AUTH_TOKEN, TWILIO_FROM_NUMBER, ONCALL_PHONE_NUMBER"

/-- A service configuration with every channel enabled. -/
def configAll : ServiceConfig :=
  { emailProvider := EmailProvider.sendgrid
    jira := { failureNotificationRecipients :=
        "csirt@procircular.com,jsherlock@procircular.com" }
    featureFlags := flagsAll }

/-! ## Spec-side predicates

These restate the spec's field conditions independently of the boolean
helpers above, so the theorems relate the embedded code to the spec's
wording rather than to itself. -/

/-- Spec: "a non-empty ... field is present" (non-empty after trimming). -/
def TextPresent (v : Option String) : Prop :=
  ∃ s, v = some s ∧ strTrim s ≠ ""

/-- Spec: a value that is present, not empty or whitespace-only, and not
case-insensitively the placeholder "not provided". -/
def FieldMeaningful (v : Option String) : Prop :=
  ∃ s, v = some s ∧ strTrim s ≠ "" ∧ strToLower (strTrim s) ≠ "not provided"

/-! ## Bridging lemmas -/

theorem string_length_pos_iff (s : String) : 0 < s.length ↔ s ≠ "" := by
  cases s with
  | mk l =>
    cases l with
    | nil => simp [String.length]
    | cons c cs => simp [String.length, String.ext_iff]

theorem strTrim_empty : strTrim "" = "" := rfl

theorem hasTrimmedText_iff (v : Option String) :
    hasTrimmedText v = true ↔ TextPresent v := by
  cases v with
  | none => simp [hasTrimmedText, TextPresent]
  | some s => simp [hasTrimmedText, TextPresent, string_length_pos_iff]

theorem fieldProvided_iff (v : Option String) :
    fieldProvided v = true ↔ FieldMeaningful v := by
  cases v with
  | none => simp [fieldProvided, FieldMeaningful]
  | some s =>
    simp only [fieldProvided, FieldMeaningful, Bool.and_eq_true, Bool.not_eq_true',
      beq_eq_false_iff_ne, ne_eq, Option.some.injEq, exists_eq_left']
    constructor
    · rintro ⟨⟨-, h2⟩, h3⟩
      exact ⟨h2, h3⟩
    · rintro ⟨h2, h3⟩
      refine ⟨⟨?_, h2⟩, h3⟩
      rintro rfl
      exact h2 strTrim_empty

theorem isIrCall_iff (p : RetellAnalysisPayload) :
    isIrCall p = true ↔
      (TextPresent (getAnalysis p).IR_call_description ∨
        (getAnalysis p).is_security_incident = some true) := by
  simp [isIrCall, hasTrimmedText_iff]

theorem isNonIrCall_iff (p : RetellAnalysisPayload) :
    isNonIrCall p = true ↔
      ((getAnalysis p).is_security_incident ≠ some true ∧
        (TextPresent (getAnalysis p).non_IR_inquiry_reason ∨
          TextPresent (getAnalysis p).non_IR_call_description)) := by
  by_cases h : (getAnalysis p).is_security_incident = some true
  · simp [isNonIrCall, h]
  · simp [isNonIrCall, h, hasTrimmedText_iff]

/-- C1: For every analysis-field mapping, classification follows the spec
algorithm: `Incident` iff the incident-description field is non-empty after
trimming or the `is_security_incident` flag is exactly `true`; otherwise
`Inquiry` iff a non-empty inquiry-reason or inquiry-description field is
present; otherwise `Unclassified`. In particular a `true` flag forces
`Incident` regardless of all other fields, and incident text plus inquiry
text without the flag is still `Incident`. -/
theorem classification_follows_spec (p : RetellAnalysisPayload) :
    (classify p = Classification.incident ↔
      (TextPresent (getAnalysis p).IR_call_description ∨
        (getAnalysis p).is_security_incident = some true)) ∧
    (classify p = Classification.inquiry ↔
      (¬(TextPresent (getAnalysis p).IR_call_description ∨
          (getAnalysis p).is_security_incident = some true) ∧
        (TextPresent (getAnalysis p).non_IR_inquiry_reason ∨
          TextPresent (getAnalysis p).non_IR_call_description))) ∧
    (classify p = Classification.unclassified ↔
      (¬(TextPresent (getAnalysis p).IR_call_description ∨
          (getAnalysis p).is_security_incident = some true) ∧
        ¬(TextPresent (getAnalysis p).non_IR_inquiry_reason ∨
          TextPresent (getAnalysis p).non_IR_call_description))) ∧
    ((getAnalysis p).is_security_incident = some true →
      classify p = Classification.incident) ∧
    ((TextPresent (getAnalysis p).IR_call_description ∧
      (TextPresent (getAnalysis p).non_IR_inquiry_reason ∨
        TextPresent (getAnalysis p).non_IR_call_description) ∧
      (getAnalysis p).is_security_incident ≠ some true) →
      classify p = Classification.incident) := by
  have hir := isIrCall_iff p
  have hnon := isNonIrCall_iff p
  cases h1 : isIrCall p <;> cases h2 : isNonIrCall p <;>
    rw [h1] at hir <;> rw [h2] at hnon <;>
    simp only [classify, h1, h2, if_true, if_false] <;>
    simp at hir hnon ⊢ <;>
    tauto

/-- Witness for C1: the flag alone forces `Incident`, and incident text plus
inquiry text without the flag is still `Incident`, at concrete payloads. -/
theorem classification_follows_spec_witness :
    classify pFlagOnly = Classification.incident ∧
    classify pBothTexts = Classification.incident := by
  constructor
  · exact (classification_follows_spec pFlagOnly).2.2.2.1 rfl
  · exact (classification_follows_spec pBothTexts).2.2.2.2
      ⟨⟨"hacked mailbox", rfl, by decide⟩,
        Or.inl ⟨"pricing question", rfl, by decide⟩, by decide⟩

/-- C3: For every field mapping, validation matches the per-classification
policy. Incident validation succeeds exactly when the flag is exactly `true`
and caller name, company name and phone number are each meaningful
(non-empty, non-whitespace, not the placeholder), missing descriptors appear
exactly for the unmet requirements in the fixed order flag, caller, company,
phone; Inquiry validation succeeds exactly when the flag is not `true`, the
caller name is meaningful, and phone or email is meaningful, company never
required; in both validators `valid` is true exactly when `missingFields` is
empty. -/
theorem validation_matches_policy (p : RetellAnalysisPayload) :
    ((validateIrCallData p).valid = true ↔
      ((getAnalysis p).is_security_incident = some true ∧
        FieldMeaningful (getAnalysis p).caller_name ∧
        FieldMeaningful (getAnalysis p).company_name ∧
        FieldMeaningful (getAnalysis p).caller_phone_number)) ∧
    List.Sublist (validateIrCallData p).missingFields irMissingOrder ∧
    (missingFlagDesc ∈ (validateIrCallData p).missingFields ↔
      (getAnalysis p).is_security_incident ≠ some true) ∧
    (missingIrCallerDesc ∈ (validateIrCallData p).missingFields ↔
      ¬FieldMeaningful (getAnalysis p).caller_name) ∧
    (missingCompanyDesc ∈ (validateIrCallData p).missingFields ↔
      ¬FieldMeaningful (getAnalysis p).company_name) ∧
    (missingPhoneDesc ∈ (validateIrCallData p).missingFields ↔
      ¬FieldMeaningful (getAnalysis p).caller_phone_number) ∧
    ((validateIrCallData p).valid = (validateIrCallData p).missingFields.isEmpty) ∧
    ((validateNonIrCallData p).valid = true ↔
      ((getAnalysis p).is_security_incident ≠ some true ∧
        FieldMeaningful (getAnalysis p).caller_name ∧
        (FieldMeaningful (getAnalysis p).caller_phone_number ∨
          FieldMeaningful (getAnalysis p).caller_email_address))) ∧
    List.Sublist (validateNonIrCallData p).missingFields nonIrMissingOrder ∧
    (missingCompanyDesc ∉ (validateNonIrCallData p).missingFields) ∧
    ((validateNonIrCallData p).valid = (validateNonIrCallData p).missingFields.isEmpty) := by
  by_cases hf : (getAnalysis p).is_security_incident = some true <;>
    cases h1 : fieldProvided (getAnalysis p).caller_name <;>
    cases h2 : fieldProvided (getAnalysis p).company_name <;>
    cases h3 : fieldProvided (getAnalysis p).caller_phone_number <;>
    cases h4 : fieldProvided (getAnalysis p).caller_email_address <;>
    simp only [← fieldProvided_iff] <;>
    simp [validateIrCallData, validateNonIrCallData, hf, h1, h2, h3, h4] <;>
    decide

/-- Witness for C3 at concrete payloads: the valid incident payload
satisfies IR validation, and the inquiry payload satisfies non-IR
validation via its email address. -/
theorem validation_matches_policy_witness :
    (validateIrCallData pIncident).valid = true ∧
    (validateNonIrCallData pInquiry).valid = true := by
  constructor
  · exact (validation_matches_policy pIncident).1.mpr
      ⟨rfl, ⟨"Jane Doe", rfl, by decide, by decide⟩,
        ⟨"Acme", rfl, by decide, by decide⟩,
        ⟨"5551234567", rfl, by decide, by decide⟩⟩
  · exact (validation_matches_policy pInquiry).2.2.2.2.2.2.2.1.mpr
      ⟨by decide, ⟨"Bob", rfl, by decide, by decide⟩,
        Or.inr ⟨"bob@x.com", rfl, by decide, by decide⟩⟩

theorem classify_unclassified_iff (p : RetellAnalysisPayload) :
    classify p = Classification.unclassified ↔
      (isIrCall p = false ∧ isNonIrCall p = false) := by
  cases h1 : isIrCall p <;> cases h2 : isNonIrCall p <;> simp [classify, h1, h2]

theorem flag_ne_of_not_ir (p : RetellAnalysisPayload) (h : isIrCall p = false) :
    (getAnalysis p).is_security_incident ≠ some true := by
  intro hf
  have hT : isIrCall p = true := (isIrCall_iff p).mpr (Or.inr hf)
  rw [h] at hT
  exact Bool.false_ne_true hT

theorem validateIr_invalid_of_not_ir (p : RetellAnalysisPayload)
    (h : isIrCall p = false) : (validateIrCallData p).valid = false := by
  have hflag := flag_ne_of_not_ir p h
  simp [validateIrCallData, hflag]

/-- C2 counterexample: a concrete payload matching neither classifier rule,
with every channel enabled, is dispatched with no validation: the pipeline
returns the full incident task list instead of a skipped outcome, and the
Teams and SMS tasks are attempted even though Incident validation fails. -/
theorem unclassified_dispatch_counterexample :
    classify pUnclassified = Classification.unclassified ∧
    (validateIrCallData pUnclassified).valid = false ∧
    dispatchTasks pUnclassified flagsAll =
      Except.ok [NotificationTask.jiraTicket, NotificationTask.irEmail,
        NotificationTask.teamsMessage, NotificationTask.smsAlert] ∧
    taskAction pUnclassified NotificationTask.teamsMessage = TaskAction.attempted ∧
    taskAction pUnclassified NotificationTask.smsAlert = TaskAction.attempted :=
  ⟨rfl, rfl, rfl, rfl, rfl⟩

/-- C2 (amended): For every Unclassified call the pipeline performs no
pre-dispatch validation and never returns a skipped outcome: it always
dispatches the flag-gated incident task set. Incident validation is in fact
always unmet for such calls; the ticket and incident-email tasks then skip
internally, but the chat and SMS tasks are attempted whenever enabled. -/
theorem unclassified_dispatch_skips_validation (p : RetellAnalysisPayload)
    (flags : FeatureFlags) (h : classify p = Classification.unclassified) :
    dispatchTasks p flags = Except.ok (incidentTaskSet flags) ∧
    (validateIrCallData p).valid = false ∧
    taskAction p NotificationTask.jiraTicket = TaskAction.skippedInternally ∧
    taskAction p NotificationTask.irEmail = TaskAction.skippedInternally ∧
    taskAction p NotificationTask.teamsMessage = TaskAction.attempted ∧
    taskAction p NotificationTask.smsAlert = TaskAction.attempted := by
  obtain ⟨h1, h2⟩ := (classify_unclassified_iff p).mp h
  have hv := validateIr_invalid_of_not_ir p h1
  refine ⟨?_, hv, ?_, ?_, rfl, rfl⟩
  · simp [dispatchTasks, h1, h2]
  · simp [taskAction, hv]
  · simp [taskAction, hv]

/-- Witness for C2 (amended) at the concrete unclassified payload. -/
theorem unclassified_dispatch_skips_validation_witness :
    dispatchTasks pUnclassified flagsAll = Except.ok (incidentTaskSet flagsAll) ∧
    (validateIrCallData pUnclassified).valid = false ∧
    taskAction pUnclassified NotificationTask.jiraTicket = TaskAction.skippedInternally ∧
    taskAction pUnclassified NotificationTask.irEmail = TaskAction.skippedInternally ∧
    taskAction pUnclassified NotificationTask.teamsMessage = TaskAction.attempted ∧
    taskAction pUnclassified NotificationTask.smsAlert = TaskAction.attempted :=
  unclassified_dispatch_skips_validation pUnclassified flagsAll rfl

theorem classify_inquiry_iff_bools (p : RetellAnalysisPayload) :
    classify p = Classification.inquiry ↔
      (isIrCall p = false ∧ isNonIrCall p = true) := by
  cases h1 : isIrCall p <;> cases h2 : isNonIrCall p <;> simp [classify, h1, h2]

/-- C5: For every call classified Inquiry, a successful dispatch constructs
exactly the inquiry-email task; the ticket, chat, and SMS channels are never
invoked, whatever the configuration flags. -/
theorem inquiry_dispatch_only_email (p : RetellAnalysisPayload)
    (flags : FeatureFlags) (tasks : List NotificationTask)
    (hc : classify p = Classification.inquiry)
    (hd : dispatchTasks p flags = Except.ok tasks) :
    tasks = [NotificationTask.nonIrEmail] ∧
    NotificationTask.jiraTicket ∉ tasks ∧
    NotificationTask.teamsMessage ∉ tasks ∧
    NotificationTask.smsAlert ∉ tasks := by
  obtain ⟨h1, h2⟩ := (classify_inquiry_iff_bools p).mp hc
  cases hval : (validateNonIrCallData p).valid
  · simp [dispatchTasks, h1, h2, hval] at hd
  · simp [dispatchTasks, h1, h2, hval] at hd
    subst hd
    refine ⟨rfl, by decide, by decide, by decide⟩

/-- Witness for C5 at the concrete inquiry payload with all flags enabled. -/
theorem inquiry_dispatch_only_email_witness :
    [NotificationTask.nonIrEmail] = [NotificationTask.nonIrEmail] ∧
    NotificationTask.jiraTicket ∉ [NotificationTask.nonIrEmail] ∧
    NotificationTask.teamsMessage ∉ [NotificationTask.nonIrEmail] ∧
    NotificationTask.smsAlert ∉ [NotificationTask.nonIrEmail] :=
  inquiry_dispatch_only_email pInquiry flagsAll [NotificationTask.nonIrEmail]
    (by decide) rfl

theorem mem_incidentTaskSet (flags : FeatureFlags) :
    ∀ t ∈ incidentTaskSet flags, flagFor flags (channelOf t) = true := by
  rcases flags with ⟨e, tm, sm, j⟩
  cases e <;> cases tm <;> cases sm <;> cases j <;> decide

/-- C6 counterexample: a concrete Inquiry call with the email channel (and
every other channel) disabled still gets the inquiry-email task constructed,
a task for a disabled channel. -/
theorem disabled_channel_counterexample :
    flagsNone.enableEmail = false ∧
    classify pInquiry = Classification.inquiry ∧
    dispatchTasks pInquiry flagsNone = Except.ok [NotificationTask.nonIrEmail] ∧
    channelOf NotificationTask.nonIrEmail = Channel.email ∧
    flagFor flagsNone (channelOf NotificationTask.nonIrEmail) = false :=
  ⟨rfl, by decide, rfl, rfl, rfl⟩

/-- C6 (amended): On the Incident and Unclassified paths no task for a
disabled channel is ever constructed — every constructed task other than the
inquiry-email task has its channel flag enabled — but the Inquiry path
constructs the inquiry-email task unconditionally, regardless of the email
enable flag. -/
theorem disabled_channels_not_constructed (p : RetellAnalysisPayload)
    (flags : FeatureFlags) (tasks : List NotificationTask)
    (hd : dispatchTasks p flags = Except.ok tasks) :
    (∀ t ∈ tasks, t ≠ NotificationTask.nonIrEmail →
      flagFor flags (channelOf t) = true) ∧
    (isNonIrCall p = true → isIrCall p = false →
      tasks = [NotificationTask.nonIrEmail]) := by
  constructor
  · intro t ht hne
    cases h1 : isIrCall p
    · cases h2 : isNonIrCall p
      · simp [dispatchTasks, h1, h2] at hd
        subst hd
        exact mem_incidentTaskSet flags t ht
      · cases hval : (validateNonIrCallData p).valid
        · simp [dispatchTasks, h1, h2, hval] at hd
        · simp [dispatchTasks, h1, h2, hval] at hd
          subst hd
          simp at ht
          exact absurd ht hne
    · cases hval : (validateIrCallData p).valid
      · simp [dispatchTasks, h1, hval] at hd
      · simp [dispatchTasks, h1, hval] at hd
        subst hd
        exact mem_incidentTaskSet flags t ht
  · intro hn hi
    cases hval : (validateNonIrCallData p).valid
    · simp [dispatchTasks, hi, hn, hval] at hd
    · simp [dispatchTasks, hi, hn, hval] at hd
      exact hd.symm

/-- Witness for C6 (amended): on the incident dispatch of the valid incident
payload, the constructed SMS task has its channel flag enabled. -/
theorem disabled_channels_not_constructed_witness :
    flagFor flagsAll (channelOf NotificationTask.smsAlert) = true :=
  (disabled_channels_not_constructed pIncident flagsAll (incidentTaskSet flagsAll)
      rfl).1 NotificationTask.smsAlert (by decide) (by decide)

theorem length_filter_split (l : List Bool) :
    l.length = (l.filter (fun b => b == true)).length +
      (l.filter (fun b => b == false)).length := by
  induction l with
  | nil => rfl
  | cons b bs ih => cases b <;> simp [List.filter_cons] at ih ⊢ <;> omega

theorem failed_pos_of_mem (tasks : List NotificationTask)
    (res : NotificationTask → Bool) (t : NotificationTask)
    (ht : t ∈ tasks) (hf : res t = false) : 1 ≤ (settleAll tasks res).failed := by
  have hmem : (false : Bool) ∈ (settledResults tasks res).filter (fun b => b == false) := by
    simp only [settledResults, List.mem_filter, List.mem_map]
    exact ⟨⟨t, ht, hf⟩, rfl⟩
  have hpos := List.length_pos.mpr (List.ne_nil_of_mem hmem)
  simpa [settleAll] using hpos

theorem successful_pos_of_mem (tasks : List NotificationTask)
    (res : NotificationTask → Bool) (t : NotificationTask)
    (ht : t ∈ tasks) (hf : res t = true) : 1 ≤ (settleAll tasks res).successful := by
  have hmem : (true : Bool) ∈ (settledResults tasks res).filter (fun b => b == true) := by
    simp only [settledResults, List.mem_filter, List.mem_map]
    exact ⟨⟨t, ht, hf⟩, rfl⟩
  have hpos := List.length_pos.mpr (List.ne_nil_of_mem hmem)
  simpa [settleAll] using hpos

/-- C4: For every dispatch run, the settle-all join keeps one settled result
per constructed task, the reported outcome satisfies
`total = successful + failed` and `total = tasks.length`, a mixed run
reports `failed ≥ 1` and `successful ≥ 1`, and any dispatched outcome maps
to an HTTP 200 response with the request-level success flag set. -/
theorem dispatch_settle_all_invariants (p : RetellAnalysisPayload)
    (flags : FeatureFlags) (ext : NotificationTask → Bool)
    (tasks : List NotificationTask)
    (_hd : dispatchTasks p flags = Except.ok tasks) :
    (settleAll tasks (taskFulfilled p ext)).total =
      (settleAll tasks (taskFulfilled p ext)).successful +
        (settleAll tasks (taskFulfilled p ext)).failed ∧
    (settleAll tasks (taskFulfilled p ext)).total = tasks.length ∧
    (settledResults tasks (taskFulfilled p ext)).length = tasks.length ∧
    ((∃ t ∈ tasks, taskFulfilled p ext t = false) →
      1 ≤ (settleAll tasks (taskFulfilled p ext)).failed) ∧
    ((∃ t ∈ tasks, taskFulfilled p ext t = true) →
      1 ≤ (settleAll tasks (taskFulfilled p ext)).successful) ∧
    (∀ callType status2,
      successFlag (HttpResult.processed callType tasks status2) = true ∧
      httpStatus (HttpResult.processed callType tasks status2) = 200) := by
  refine ⟨?_, ?_, ?_, ?_, ?_, fun ct st => ⟨rfl, rfl⟩⟩
  · simpa [settleAll] using length_filter_split (settledResults tasks (taskFulfilled p ext))
  · simp [settleAll, settledResults]
  · simp [settledResults]
  · rintro ⟨t, ht, hf⟩
    exact failed_pos_of_mem tasks (taskFulfilled p ext) t ht hf
  · rintro ⟨t, ht, hf⟩
    exact successful_pos_of_mem tasks (taskFulfilled p ext) t ht hf

/-- Witness for C4: on the valid incident payload with all channels enabled
and only the Jira call failing, the outcome counts at least one failure and
one success and the counts add up. -/
theorem dispatch_settle_all_invariants_witness :
    1 ≤ (settleAll (incidentTaskSet flagsAll)
        (taskFulfilled pIncident extOneFail)).failed ∧
    1 ≤ (settleAll (incidentTaskSet flagsAll)
        (taskFulfilled pIncident extOneFail)).successful ∧
    (settleAll (incidentTaskSet flagsAll) (taskFulfilled pIncident extOneFail)).total =
      (settleAll (incidentTaskSet flagsAll)
          (taskFulfilled pIncident extOneFail)).successful +
        (settleAll (incidentTaskSet flagsAll)
            (taskFulfilled pIncident extOneFail)).failed := by
  have H := dispatch_settle_all_invariants pIncident flagsAll extOneFail
    (incidentTaskSet flagsAll) rfl
  exact ⟨H.2.2.2.1 ⟨NotificationTask.jiraTicket, by decide, by decide⟩,
    H.2.2.2.2.1 ⟨NotificationTask.irEmail, by decide, by decide⟩, H.1⟩

theorem settleAll_all_fulfilled (tasks : List NotificationTask)
    (res : NotificationTask → Bool) (h : ∀ u ∈ tasks, res u = true) :
    (settleAll tasks res).successful = tasks.length ∧
    (settleAll tasks res).failed = 0 := by
  induction tasks with
  | nil => exact ⟨rfl, rfl⟩
  | cons a l ih =>
    have ha := h a (List.mem_cons_self a l)
    obtain ⟨hl1, hl2⟩ := ih (fun u hu => h u (List.mem_cons_of_mem a hu))
    constructor
    · simp [settleAll, settledResults, List.filter_cons, ha] at hl1 ⊢
      omega
    · simpa [settleAll, settledResults, List.filter_cons, ha] using hl2

/-- C9: A task that skips its work because its own internal re-validation
fails resolves normally regardless of the external adapter outcome, and a
dispatch whose tasks all skip internally reports every task successful and
none failed, even though no notification was actually sent. -/
theorem internal_skip_counts_successful (p : RetellAnalysisPayload)
    (ext : NotificationTask → Bool) (t : NotificationTask)
    (h : taskAction p t = TaskAction.skippedInternally) :
    taskFulfilled p ext t = true ∧
    ∀ tasks : List NotificationTask,
      (∀ u ∈ tasks, taskAction p u = TaskAction.skippedInternally) →
      (settleAll tasks (taskFulfilled p ext)).successful = tasks.length ∧
      (settleAll tasks (taskFulfilled p ext)).failed = 0 := by
  refine ⟨by simp [taskFulfilled, h], ?_⟩
  intro tasks hall
  exact settleAll_all_fulfilled tasks (taskFulfilled p ext)
    (fun u hu => by simp [taskFulfilled, hall u hu])

/-- Witness for C9: on the unclassified payload the ticket and incident-email
tasks skip internally, so even with every adapter call failing the dispatch
outcome reports both tasks successful and none failed. -/
theorem internal_skip_counts_successful_witness :
    taskFulfilled pUnclassified extAllFail NotificationTask.jiraTicket = true ∧
    (settleAll [NotificationTask.jiraTicket, NotificationTask.irEmail]
        (taskFulfilled pUnclassified extAllFail)).successful = 2 ∧
    (settleAll [NotificationTask.jiraTicket, NotificationTask.irEmail]
        (taskFulfilled pUnclassified extAllFail)).failed = 0 := by
  obtain ⟨h1, h2⟩ := internal_skip_counts_successful pUnclassified extAllFail
    NotificationTask.jiraTicket (by decide)
  obtain ⟨hs, hf⟩ := h2 [NotificationTask.jiraTicket, NotificationTask.irEmail]
    (by decide)
  exact ⟨h1, hs, hf⟩

/-- C7: A missing shared secret is rejected as a server misconfiguration
before the body is read or parsed; a missing signature header is rejected
with a distinct client error, also before any body processing; a
non-verifying signature over the raw body is rejected as an authentication
error without parsing; and the body is parsed only after verification of
the raw body text succeeds. -/
theorem signature_gate_order (verify : String → String → String → Bool)
    (parse : String → Option RetellWebhookPayload) (env : Env)
    (ext : NotificationTask → Bool) (req : WebhookRequest) :
    (req.apiKey = none →
      processWebhook verify parse env ext req = (HttpResult.serverMisconfig, [])) ∧
    (∀ k, req.apiKey = some k → req.signature = none →
      processWebhook verify parse env ext req = (HttpResult.missingSignature, []) ∧
      HttpResult.missingSignature ≠ HttpResult.serverMisconfig) ∧
    (∀ k s, req.apiKey = some k → req.signature = some s →
      verify req.rawBody k s = false →
      processWebhook verify parse env ext req =
        (HttpResult.invalidSignature, [Step.readBody, Step.verifySignature])) ∧
    (∀ r tr, processWebhook verify parse env ext req = (r, tr) →
      Step.parseBody ∈ tr →
      ∃ k s, req.apiKey = some k ∧ req.signature = some s ∧
        verify req.rawBody k s = true) := by
  refine ⟨?_, ?_, ?_, ?_⟩
  · intro h
    simp [processWebhook, h]
  · intro k hk hs
    exact ⟨by simp [processWebhook, hk, hs], by simp⟩
  · intro k s hk hs hv
    simp [processWebhook, hk, hs, hv]
  · intro r tr hpr hmem
    cases hk : req.apiKey with
    | none =>
      simp [processWebhook, hk] at hpr
      obtain ⟨rfl, rfl⟩ := hpr
      simp at hmem
    | some k =>
      cases hs : req.signature with
      | none =>
        simp [processWebhook, hk, hs] at hpr
        obtain ⟨rfl, rfl⟩ := hpr
        simp at hmem
      | some s =>
        cases hv : verify req.rawBody k s with
        | false =>
          simp [processWebhook, hk, hs, hv] at hpr
          obtain ⟨rfl, rfl⟩ := hpr
          simp at hmem
        | true => exact ⟨k, s, rfl, rfl, hv⟩

/-- Witness for C7 at three concrete requests: missing secret, missing
signature header, and non-verifying signature. -/
theorem signature_gate_order_witness :
    processWebhook verifyNever parseNone [] extAllFail reqNoKey =
      (HttpResult.serverMisconfig, []) ∧
    processWebhook verifyNever parseNone [] extAllFail reqNoSig =
      (HttpResult.missingSignature, []) ∧
    processWebhook verifyNever parseNone [] extAllFail reqBadSig =
      (HttpResult.invalidSignature, [Step.readBody, Step.verifySignature]) :=
  ⟨(signature_gate_order verifyNever parseNone [] extAllFail reqNoKey).1 rfl,
   ((signature_gate_order verifyNever parseNone [] extAllFail reqNoSig).2.1
      "key" rfl rfl).1,
   (signature_gate_order verifyNever parseNone [] extAllFail reqBadSig).2.2.1
      "key" "bad" rfl rfl rfl⟩

/-- C8: Whenever the Jira ticket call fails on a validated payload and the
email channel is enabled, the task attempts the failure-alert email to the
configured failure-notification recipient list, the task still raises the
original Jira error (the alert email's own failure changes nothing), and
that error is counted as a failure in the settle-all outcome of any dispatch
containing the ticket task. -/
theorem jira_failure_alert (p : RetellAnalysisPayload) (config : ServiceConfig)
    (api : JiraApiOutcome) (b : Bool) (ext : NotificationTask → Bool)
    (hv : (validateIrCallData p).valid = true)
    (hf : jiraCallFails api = true)
    (he : config.featureFlags.enableEmail = true) :
    (createJiraTicketViaApi p config api b).alertEmailRecipients =
      some (splitRecipients config.jira.failureNotificationRecipients) ∧
    (createJiraTicketViaApi p config api b).result =
      Except.error (jiraErrorMessage api) ∧
    createJiraTicketViaApi p config api true =
      createJiraTicketViaApi p config api false ∧
    (∀ tasks, NotificationTask.jiraTicket ∈ tasks →
      1 ≤ (settleAll tasks (fun t =>
        if t == NotificationTask.jiraTicket then
          exceptOk (createJiraTicketViaApi p config api b).result
        else ext t)).failed) := by
  have hres : (createJiraTicketViaApi p config api b).result =
      Except.error (jiraErrorMessage api) := by
    cases api with
    | success k => simp [jiraCallFails] at hf
    | httpError st body => simp [createJiraTicketViaApi, hv, he, jiraErrorMessage]
    | exceptionThrown m => simp [createJiraTicketViaApi, hv, he, jiraErrorMessage]
  have hrec : (createJiraTicketViaApi p config api b).alertEmailRecipients =
      some (splitRecipients config.jira.failureNotificationRecipients) := by
    cases api with
    | success k => simp [jiraCallFails] at hf
    | httpError st body => simp [createJiraTicketViaApi, hv, he]
    | exceptionThrown m => simp [createJiraTicketViaApi, hv, he]
  refine ⟨hrec, hres, rfl, ?_⟩
  intro tasks ht
  apply failed_pos_of_mem tasks _ NotificationTask.jiraTicket ht
  simp [hres, exceptOk]

/-- Witness for C8 at the valid incident payload, all channels enabled, a
concrete failing Jira call, and a dispatch of just the ticket task. -/
theorem jira_failure_alert_witness :
    (createJiraTicketViaApi pIncident configAll
        (JiraApiOutcome.httpError 500 "boom") true).alertEmailRecipients =
      some (splitRecipients configAll.jira.failureNotificationRecipients) ∧
    (createJiraTicketViaApi pIncident configAll
        (JiraApiOutcome.httpError 500 "boom") true).result =
      Except.error (jiraErrorMessage (JiraApiOutcome.httpError 500 "boom")) ∧
    1 ≤ (settleAll [NotificationTask.jiraTicket] (fun t =>
        if t == NotificationTask.jiraTicket then
          exceptOk (createJiraTicketViaApi pIncident configAll
            (JiraApiOutcome.httpError 500 "boom") true).result
        else extAllFail t)).failed := by
  have H := jira_failure_alert pIncident configAll
    (JiraApiOutcome.httpError 500 "boom") true extAllFail (by decide) rfl rfl
  exact ⟨H.1, H.2.1, H.2.2.2 [NotificationTask.jiraTicket] (by decide)⟩

/-- C10: On a verified `call_analyzed` event, a configuration-loading error
becomes a request-level unexpected-error (HTTP 500, success false) response,
and neither classification nor dispatch runs; moreover configuration loading
errors exactly when some required variable of an enabled channel is absent
or empty, and each enabled channel contributes its required variables. -/
theorem config_error_fails_request (verify : String → String → String → Bool)
    (parse : String → Option RetellWebhookPayload) (env : Env)
    (ext : NotificationTask → Bool) (req : WebhookRequest)
    (wp : RetellWebhookPayload) (k s msg : String)
    (hk : req.apiKey = some k) (hs : req.signature = some s)
    (hv : verify req.rawBody k s = true)
    (hp : parse req.rawBody = some wp)
    (he : wp.event = EventType.call_analyzed)
    (hc : loadConfiguration env = Except.error msg) :
    processWebhook verify parse env ext req =
      (HttpResult.unexpectedError msg,
        [Step.readBody, Step.verifySignature, Step.parseBody, Step.loadConfig]) ∧
    Step.classifyStep ∉
      [Step.readBody, Step.verifySignature, Step.parseBody, Step.loadConfig] ∧
    Step.dispatchStep ∉
      [Step.readBody, Step.verifySignature, Step.parseBody, Step.loadConfig] ∧
    successFlag (HttpResult.unexpectedError msg) = false ∧
    httpStatus (HttpResult.unexpectedError msg) = 500 ∧
    (∀ env2 : Env, (∃ v ∈ requiredEnvVars env2, envFalsy env2 v = true) ↔
      ∃ m, loadConfiguration env2 = Except.error m) ∧
    (∀ env2 : Env, envFlagTrue env2 "ENABLE_SMS_NOTIFICATIONS" = true →
      "TWILIO_ACCOUNT_SID" ∈ requiredEnvVars env2) ∧
    (∀ env2 : Env, envFlagTrue env2 "ENABLE_JIRA_NOTIFICATIONS" = true →
      "JIRA_API_URL" ∈ requiredEnvVars env2) ∧
    (∀ env2 : Env, envFlagTrue env2 "ENABLE_TEAMS_NOTIFICATIONS" = true →
      "TEAMS_WEBHOOK_URL" ∈ requiredEnvVars env2) ∧
    (∀ env2 : Env, envFlagTrue env2 "ENABLE_EMAIL_NOTIFICATIONS" = true →
      "IRT_EMAIL_ADDRESS" ∈ requiredEnvVars env2) := by
  refine ⟨?_, by decide, by decide, rfl, rfl, ?_, ?_, ?_, ?_, ?_⟩
  · simp [processWebhook, hk, hs, hv, hp, he, hc]
  · intro env2
    constructor
    · rintro ⟨v, hvmem, hfal⟩
      have hne : (requiredEnvVars env2).filter (envFalsy env2) ≠ [] :=
        List.ne_nil_of_mem (List.mem_filter.mpr ⟨hvmem, hfal⟩)
      have hemp : ((requiredEnvVars env2).filter (envFalsy env2)).isEmpty = false := by
        cases hcase : (requiredEnvVars env2).filter (envFalsy env2) with
        | nil => exact absurd hcase hne
        | cons a l => rfl
      refine ⟨"Missing required environment variables for enabled features: " ++
        String.intercalate ", " ((requiredEnvVars env2).filter (envFalsy env2)), ?_⟩
      simp [loadConfiguration, hemp]
    · rintro ⟨m, hm⟩
      by_cases hemp : ((requiredEnvVars env2).filter (envFalsy env2)).isEmpty = true
      · simp [loadConfiguration, hemp] at hm
      · have hne : (requiredEnvVars env2).filter (envFalsy env2) ≠ [] := by
          intro hnil
          rw [hnil] at hemp
          exact hemp rfl
        obtain ⟨v, hv2⟩ := List.exists_mem_of_ne_nil _ hne
        obtain ⟨hvm, hvf⟩ := List.mem_filter.mp hv2
        exact ⟨v, hvm, hvf⟩
  · intro env2 hflag
    cases hAz : providerIsAzure env2 <;> simp [requiredEnvVars, hflag, hAz]
  · intro env2 hflag
    cases hAz : providerIsAzure env2 <;> simp [requiredEnvVars, hflag, hAz]
  · intro env2 hflag
    cases hAz : providerIsAzure env2 <;> simp [requiredEnvVars, hflag, hAz]
  · intro env2 hflag
    cases hAz : providerIsAzure env2 <;> simp [requiredEnvVars, hflag, hAz]

/-- Witness for C10: with SMS enabled and no Twilio variable set, the
verified analyzed event yields the unexpected-error response and the trace
stops at configuration loading. -/
theorem config_error_fails_request_witness :
    processWebhook verifyAlways parseAnalyzed envSmsOnly extAllFail reqOk =
      (HttpResult.unexpectedError smsMissingMessage,
        [Step.readBody, Step.verifySignature, Step.parseBody, Step.loadConfig]) ∧
    successFlag (HttpResult.unexpectedError smsMissingMessage) = false := by
  have H := config_error_fails_request verifyAlways parseAnalyzed envSmsOnly
    extAllFail reqOk analyzedEnvelope "key" "sig" smsMissingMessage
    rfl rfl rfl rfl rfl rfl
  exact ⟨H.1, H.2.2.2.1⟩

end Webhook
